import Mathlib

/-!
Shallow embedding of the task-management backend (girmesh03/Task-Manager-V13)
for checking its natural-language specification.

The definitions below are translated from the JavaScript sources:
  backend/controllers/TaskController.js  (createTask, getAllTasks,
                                          getTaskById, updateTaskById)
  backend/middlewares/authMiddleware.js  (verifyJWT activation cascade)
  backend/models/TaskActivityModel.js    (validTransitions)
  backend/models/ProjectTaskModel.js     (client phone normalization)

Documents are plain structures, the document store is a list, MongoDB
object ids are natural numbers; a raw id coming from a request carries a
flag telling whether it passes mongoose.Types.ObjectId.isValid. Request
bodies are structures of Option fields: none plays the role of an absent
(or falsy) field. Each controller is a pure function from the acting
principal, the stores and the request to a result value; the transaction
semantics of the source (all writes committed on success, everything
rolled back on any error) is represented by the error results carrying no
writes.
-/

namespace TaskMgr

/-- MongoDB object id. -/
abbrev OID := Nat

/-- User roles (UserModel.js: enum SuperAdmin, Manager, User). -/
inductive Role
| superAdmin
| manager
| user
deriving DecidableEq, Repr

/-- Task status (TaskActivityModel.js enum keys / spec data model). -/
inductive Status
| toDo
| inProgress
| completed
| pending
deriving DecidableEq, Repr, Fintype

/-- Task variant discriminator. -/
inductive TaskType
| assignedTask
| projectTask
deriving DecidableEq, Repr

/-- The string value of the taskType discriminator as stored in MongoDB. -/
def taskTypeStr : TaskType → String
| TaskType.assignedTask => "AssignedTask"
| TaskType.projectTask => "ProjectTask"

/-- A user document, restricted to the fields the task controllers read.
The same structure serves as the resolved principal req.user. -/
structure UserDoc where
  id : OID
  company : OID
  department : OID
  role : Role
  isActive : Bool
deriving DecidableEq, Repr

/-- clientInfo subdocument of a ProjectTask. -/
structure ClientInfo where
  name : String
  phone : String
  address : Option String
deriving DecidableEq, Repr

/-- A task document (base fields plus both variant payloads; assignedTo is
empty and clientInfo is none on the variant that does not use them). -/
structure TaskDoc where
  id : OID
  taskType : TaskType
  title : String
  description : String
  location : String
  dueDate : Int
  priority : String
  status : Status
  createdBy : OID
  company : OID
  department : OID
  assignedTo : List OID
  clientInfo : Option ClientInfo
deriving DecidableEq, Repr

/-- A notification document (the fields the task controllers write). -/
structure Notif where
  user : OID
  ntype : String
  message : String
  linkedDocument : OID
  company : OID
  department : OID
deriving DecidableEq, Repr

/-- A TaskActivity document (TaskActivityModel.js), restricted to the
fields relevant here: the task, the performer and the status change. -/
structure ActivityDoc where
  task : OID
  performedBy : OID
  statusFrom : Status
  statusTo : Status
deriving DecidableEq, Repr

/-- An id string arriving in a request: validFormat tells whether
mongoose.Types.ObjectId.isValid accepts it, oid is the id it denotes. -/
structure RawId where
  validFormat : Bool
  oid : OID
deriving DecidableEq, Repr

/-- A date string arriving in a request: invalid stands for a string on
which new Date(...) yields NaN, valid t for a string parsing to time t. -/
inductive RawDate
| invalid
| valid (t : Int)
deriving DecidableEq, Repr

/-! ## Identity and session guard (authMiddleware.js, verifyJWT lines 59-106) -/

/-- The activation state verifyJWT examines once the token has verified
and the subject user (with populated company and department) was found. -/
structure AuthCtx where
  userVerified : Bool
  userActive : Bool
  companyActive : Bool
  subscriptionStatus : String
  departmentActive : Bool
deriving DecidableEq, Repr

/-- Outcome of the guard cascade: ok attaches the principal to the
request; reject responds with an HTTP status and an error code, where the
code is none when the response body is the empty JSON object. -/
inductive GuardResult
| reject (httpStatus : Nat) (code : Option String)
| ok
deriving DecidableEq, Repr

/-- The activation cascade of verifyJWT (authMiddleware.js lines 59-106),
check for check in source order. The deactivated-company branch of the
source reads

    if (!user.company.isActive) \x7b
      return res.status(401).json(\x7b\x7d);
      res.clearCookie("refresh_token", \x7b ... error: "COMPANY_DEACTIVATED" \x7d);
    \x7d

so it answers 401 with an empty body and no error code; the clearCookie
call that mentions COMPANY_DEACTIVATED sits after the return statement and
is unreachable. That branch is therefore embedded as reject 401 none. -/
def verifyActivationChecks (c : AuthCtx) : GuardResult :=
  if !c.userVerified then GuardResult.reject 401 (some "ACCOUNT_NOT_VERIFIED")
  else if !c.userActive then GuardResult.reject 401 (some "USER_DEACTIVATED")
  else if !c.companyActive then GuardResult.reject 401 none
  else if c.subscriptionStatus != "active" then GuardResult.reject 403 (some "SUBSCRIPTION_INACTIVE")
  else if !c.departmentActive then GuardResult.reject 401 (some "DEPARTMENT_DEACTIVATED")
  else GuardResult.ok

/-! ## Status transition table (TaskActivityModel.js lines 4-10) -/

/-- The transition table of TaskActivityModel.js. -/
def validTransitions : Status → List Status
| Status.toDo => [Status.inProgress, Status.pending]
| Status.inProgress => [Status.inProgress, Status.completed, Status.pending]
| Status.completed => [Status.pending, Status.inProgress]
| Status.pending => [Status.inProgress, Status.completed]

/-- The transition table exactly as the claim spells it out, as a list of
(from, to) pairs. -/
def claimTransitionTable : List (Status × Status) :=
  [(Status.toDo, Status.inProgress), (Status.toDo, Status.pending),
   (Status.inProgress, Status.inProgress), (Status.inProgress, Status.completed),
   (Status.inProgress, Status.pending),
   (Status.completed, Status.pending), (Status.completed, Status.inProgress),
   (Status.pending, Status.inProgress), (Status.pending, Status.completed)]

/-- Modelled from the spec: the activity-logging status-change action.
The controller performing status changes is not under src/ (src/ holds
only the TaskActivityModel with its validTransitions table, embedded
above, and the task CRUD controller, which never touches status). Per the
spec, a transition allowed by the table updates the task status and
appends exactly one TaskActivity record capturing from, to and the
performer; any transition outside the table is rejected (none). -/
def logStatusChange (t : TaskDoc) (performer : OID) (s : Status)
    (acts : List ActivityDoc) : Option (TaskDoc × List ActivityDoc) :=
  if (validTransitions t.status).contains s then
    some ({ t with status := s }, acts ++ [⟨t.id, performer, t.status, s⟩])
  else none

/-! ## Task creation (TaskController.js, createTask, lines 18-257) -/

/-- clientInfo as it arrives in a create request body. -/
structure ClientBody where
  name : Option String
  phone : Option String
  address : Option String
deriving DecidableEq, Repr

/-- The create request body (req.body of POST /api/tasks). none is an
absent or empty field. status is drawn from the status enum of the data
model; the controller copies it verbatim. -/
structure CreateBody where
  taskType : Option String
  title : Option String
  description : Option String
  location : Option String
  dueDate : Option RawDate
  priority : Option String
  status : Option Status
  assignedTo : Option (List RawId)
  clientInfo : Option ClientBody
deriving DecidableEq, Repr

/-- JavaScript whitespace test for trimming (space, tab, newline, carriage
return cover every string this development evaluates). -/
def charWS (c : Char) : Bool := c == ' ' || c == '\t' || c == '\n' || c == '\r'

/-- The String.prototype.trim of the source, modelled on the character
list (String.trim of the standard library is not kernel-computable). -/
def jsTrim (s : String) : String :=
  String.mk (((s.data.dropWhile charWS).reverse.dropWhile charWS).reverse)

/-- The required-field test of createTask: a field is missing when absent
or when it is a string that trims to empty. -/
def strMissing : Option String → Bool
| none => true
| some s => jsTrim s == ""

/-- The falsy test the clientInfo branch uses on name and phone (no
trimming there: only the empty string is falsy). -/
def strFalsy : Option String → Bool
| none => true
| some s => s == ""

/-- The assignee lookup of createTask:
User.find with _id in the request list, the creator company and
department, and isActive true. -/
def resolveAssignees (users : List UserDoc) (creator : UserDoc)
    (ids : List RawId) : List UserDoc :=
  users.filter (fun us =>
    (ids.map RawId.oid).contains us.id &&
    us.company == creator.company &&
    us.department == creator.department &&
    us.isActive)

/-- The manager lookup of the ProjectTask branch of createTask:
User.find with the creator company and department, role Manager or
SuperAdmin, and isActive true. -/
def findManagersAndAdmins (users : List UserDoc) (creator : UserDoc) : List UserDoc :=
  users.filter (fun us =>
    us.company == creator.company &&
    us.department == creator.department &&
    (us.role == Role.manager || us.role == Role.superAdmin) &&
    us.isActive)

/-- The ProjectTask pre-save hook (ProjectTaskModel.js): a phone starting
with 09 has that prefix replaced by +2519 (modelled on the character
list, see jsTrim). -/
def normalizePhone (s : String) : String :=
  match s.data with
  | '0' :: '9' :: rest => String.mk ("+2519".data ++ rest)
  | _ => s

/-- Result of createTask: an error response (HTTP status and error code),
or the committed writes: the new task document and the notification
documents inserted in the same transaction. -/
inductive CreateResult
| err (httpStatus : Nat) (code : String)
| created (task : TaskDoc) (notifs : List Notif)
deriving DecidableEq, Repr

/-- The notification document built for one receiver in createTask. -/
def mkCreateNotif (creator : UserDoc) (taskType : TaskType) (taskId : OID)
    (title : String) (receiver : OID) : Notif :=
  { user := receiver
    ntype := "TaskAssignment"
    message := "New " ++ (if taskType == TaskType.assignedTask then "assigned" else "project") ++ " task: " ++ title
    linkedDocument := taskId
    company := creator.company
    department := creator.department }

/-- createTask (TaskController.js lines 18-257). Phase 1 validates the
required fields, the task type and the due date (new Date(now) is passed
in as now); phase 2 runs the variant-specific validation and computes the
notification receivers, filtering the creator out; phase 3 builds the
document (priority defaulting to Medium, status to To Do) and commits
task plus notifications in one transaction. freshId is the _id MongoDB
assigns to the new task. -/
def createTask (creator : UserDoc) (users : List UserDoc) (now : Int)
    (freshId : OID) (body : CreateBody) : CreateResult :=
  if strMissing body.title || strMissing body.description || body.dueDate.isNone
      || strMissing body.taskType || strMissing body.location then
    CreateResult.err 400 "MISSING_REQUIRED_FIELDS"
  else if !(body.taskType == some "AssignedTask" || body.taskType == some "ProjectTask") then
    CreateResult.err 400 "INVALID_TASK_TYPE"
  else
    match body.dueDate with
    | none => CreateResult.err 400 "MISSING_REQUIRED_FIELDS"
    | some RawDate.invalid => CreateResult.err 400 "INVALID_DUE_DATE"
    | some (RawDate.valid due) =>
      if due < now then CreateResult.err 400 "PAST_DUE_DATE"
      else
        let baseTask : TaskDoc :=
          { id := freshId
            taskType := TaskType.assignedTask
            title := jsTrim (body.title.getD "")
            description := jsTrim (body.description.getD "")
            location := jsTrim (body.location.getD "")
            dueDate := due
            priority := body.priority.getD "Medium"
            status := body.status.getD Status.toDo
            createdBy := creator.id
            company := creator.company
            department := creator.department
            assignedTo := []
            clientInfo := none }
        if body.taskType == some "AssignedTask" then
          match body.assignedTo with
          | none => CreateResult.err 400 "MISSING_ASSIGNED_USERS"
          | some ids =>
            if ids.isEmpty then CreateResult.err 400 "MISSING_ASSIGNED_USERS"
            else if ids.any (fun i => !i.validFormat) then
              CreateResult.err 400 "INVALID_USER_ID"
            else
              let matched := resolveAssignees users creator ids
              if matched.length != ids.length then
                CreateResult.err 404 "INVALID_ASSIGNED_USERS"
              else
                let receivers := (matched.map UserDoc.id).filter (fun i => i != creator.id)
                let task := { baseTask with assignedTo := ids.map RawId.oid }
                CreateResult.created task
                  (receivers.map (mkCreateNotif creator TaskType.assignedTask freshId task.title))
        else
          match body.clientInfo with
          | none => CreateResult.err 400 "MISSING_CLIENT_INFO"
          | some ci =>
            if strFalsy ci.name || strFalsy ci.phone then
              CreateResult.err 400 "MISSING_CLIENT_DETAILS"
            else
              let receivers :=
                ((findManagersAndAdmins users creator).map UserDoc.id).filter (fun i => i != creator.id)
              let task := { baseTask with
                taskType := TaskType.projectTask
                clientInfo := some
                  { name := jsTrim (ci.name.getD "")
                    phone := normalizePhone (jsTrim (ci.phone.getD ""))
                    address := ci.address.map jsTrim } }
              CreateResult.created task
                (receivers.map (mkCreateNotif creator TaskType.projectTask freshId task.title))

/-! ## Task listing (TaskController.js, getAllTasks, lines 262-330) -/

/-- The query parameters of GET /api/tasks the controller reads (page and
limit drive pagination only and are left out: the spec excludes generic
pagination). none is an absent or empty parameter. -/
structure ListParams where
  status : Option Status
  taskType : Option String
  departmentId : Option RawId
deriving DecidableEq, Repr

/-- Result of getAllTasks: an error response or the matching documents. -/
inductive ListResult
| err (httpStatus : Nat) (code : String)
| ok (docs : List TaskDoc)
deriving DecidableEq, Repr

/-- getAllTasks (TaskController.js lines 262-330). The query starts from
the principal company and department; status and taskType parameters add
equality filters; a User-role principal is forced onto taskType
AssignedTask with themselves among assignedTo; a departmentId parameter
is format-checked (INVALID_DEPARTMENT_ID) and then replaces the
department filter only for a SuperAdmin. -/
def getAllTasks (u : UserDoc) (store : List TaskDoc) (p : ListParams) : ListResult :=
  if (match p.departmentId with
      | some r => !r.validFormat
      | none => false) then
    ListResult.err 400 "INVALID_DEPARTMENT_ID"
  else
    let dept := match p.departmentId with
      | some r => if u.role == Role.superAdmin then r.oid else u.department
      | none => u.department
    ListResult.ok (store.filter (fun t =>
      t.company == u.company &&
      t.department == dept &&
      (match p.status with
       | some s => t.status == s
       | none => true) &&
      (if u.role == Role.user then
        t.taskType == TaskType.assignedTask && t.assignedTo.contains u.id
       else
        match p.taskType with
        | some s => taskTypeStr t.taskType == s
        | none => true)))

/-- The documents a ListResult returns (none on an error response). -/
def docsOf : ListResult → List TaskDoc
| ListResult.err _ _ => []
| ListResult.ok docs => docs

/-! ## Single task fetch (TaskController.js, getTaskById, lines 335-369) -/

/-- Result of getTaskById. -/
inductive GetResult
| err (httpStatus : Nat) (code : String)
| ok (t : TaskDoc)
deriving DecidableEq, Repr

/-- getTaskById (TaskController.js lines 335-369): id format check, fetch
(TASK_NOT_FOUND when absent), then the User-role assignee gate
(FORBIDDEN when the principal is not listed in assignedTo). -/
def getTaskById (u : UserDoc) (store : List TaskDoc) (taskId : RawId) : GetResult :=
  if !taskId.validFormat then GetResult.err 400 "INVALID_TASK_ID"
  else
    match store.find? (fun t => t.id == taskId.oid) with
    | none => GetResult.err 404 "TASK_NOT_FOUND"
    | some t =>
      if u.role == Role.user && !(t.assignedTo.contains u.id) then
        GetResult.err 403 "FORBIDDEN"
      else GetResult.ok t

/-! ## Task update (TaskController.js, updateTaskById, lines 374-644) -/

/-- The update request body (req.body of PUT /api/tasks/:taskId). A some
field is a key present in the body. The last four fields mirror the
protected keys a client may send; updateTaskById deletes them before
applying anything. -/
structure UpdateBody where
  title : Option String
  description : Option String
  location : Option String
  dueDate : Option Int
  priority : Option String
  assignedTo : Option (List OID)
  clientInfo : Option ClientInfo
  taskType : Option TaskType
  createdBy : Option OID
  department : Option OID
  status : Option Status
deriving DecidableEq, Repr

/-- The protected-field stripping of updateTaskById:
protectedFields.forEach((field) => delete updateData[field]) with
protectedFields = [taskType, createdBy, department, status]. -/
def stripProtected (b : UpdateBody) : UpdateBody :=
  { b with taskType := none, createdBy := none, department := none, status := none }

/-- Modelled from the spec: the helper arraysEqual that updateTaskById
calls is defined outside src/ (only its call sites are in src). The spec
speaks of detecting any assignee-set change against the pre-update
snapshot; per the helper name and call sites (two arrays of id strings)
it is embedded as elementwise list equality. -/
def arraysEqual (a b : List OID) : Bool := a == b

/-- The update-application loop of updateTaskById: each present body key
that is in allowedUpdates (title, description, location, dueDate,
priority, plus assignedTo for an AssignedTask and clientInfo for a
ProjectTask) overwrites the task field. -/
def applyUpdates (t : TaskDoc) (b : UpdateBody) : TaskDoc :=
  { t with
    title := b.title.getD t.title
    description := b.description.getD t.description
    location := b.location.getD t.location
    dueDate := b.dueDate.getD t.dueDate
    priority := b.priority.getD t.priority
    assignedTo :=
      if t.taskType == TaskType.assignedTask then b.assignedTo.getD t.assignedTo
      else t.assignedTo
    clientInfo :=
      if t.taskType == TaskType.projectTask then
        match b.clientInfo with
        | some ci => some ci
        | none => t.clientInfo
      else t.clientInfo }

/-- The changed-field list of updateTaskById: keys present in the (already
stripped) body, within allowedUpdates, whose applied value differs from
the original snapshot, with the special assignedTo handling appended
(current assignedTo differing from the original snapshot). -/
def changedFields (orig applied : TaskDoc) (d : UpdateBody) : List String :=
  (if d.title.isSome && applied.title != orig.title then ["title"] else []) ++
  (if d.description.isSome && applied.description != orig.description then ["description"] else []) ++
  (if d.location.isSome && applied.location != orig.location then ["location"] else []) ++
  (if d.dueDate.isSome && applied.dueDate != orig.dueDate then ["dueDate"] else []) ++
  (if d.priority.isSome && applied.priority != orig.priority then ["priority"] else []) ++
  (if orig.taskType == TaskType.projectTask && d.clientInfo.isSome
      && applied.clientInfo != orig.clientInfo then ["clientInfo"] else []) ++
  (if orig.taskType == TaskType.assignedTask
      && !arraysEqual applied.assignedTo orig.assignedTo then ["assignedTo"] else [])

/-- The important-change field set of updateTaskById. companyInfo appears
verbatim in the source; no changed field is ever named companyInfo, so in
effect only title, dueDate and priority count (plus assignee changes,
tracked separately). -/
def importantFields : List String := ["title", "dueDate", "priority", "companyInfo"]

/-- A TaskUpdate notification as updateTaskById builds them. -/
def mkUpdateNotif (actor : UserDoc) (taskId : OID) (message : String) (receiver : OID) : Notif :=
  { user := receiver
    ntype := "TaskUpdate"
    message := message
    linkedDocument := taskId
    company := actor.company
    department := actor.department }

/-- Result of updateTaskById: an error response (code none when the
CustomError carries no error code, as in the invalid-assignees branch),
or the saved task together with the notifications inserted in the same
transaction. -/
inductive UpdateResult
| err (httpStatus : Nat) (code : Option String)
| updated (task : TaskDoc) (notifs : List Notif)
deriving DecidableEq, Repr

/-- updateTaskById (TaskController.js lines 374-644): id format check;
User-role principals rejected outright; task fetch; the authorization
check isCreator or (isManagerPlus and validDepartment); protected-field
stripping; update application with assignee-change tracking; assignee
validation (count of users matching company and department of the actor);
then diff-driven notifications: new assignees, and on an important change
the creator (when the actor is not the creator) plus, per variant, the
original assignees (minus the actor) or the department Managers and
SuperAdmins (minus the actor, no isActive filter here). -/
def updateTaskById (actor : UserDoc) (users : List UserDoc) (store : List TaskDoc)
    (taskId : RawId) (body : UpdateBody) : UpdateResult :=
  if !taskId.validFormat then UpdateResult.err 400 (some "INVALID_TASK_ID")
  else if actor.role == Role.user then UpdateResult.err 403 (some "PERMISSION_DENIED")
  else
    match store.find? (fun t => t.id == taskId.oid) with
    | none => UpdateResult.err 404 (some "TASK_NOT_FOUND")
    | some task =>
      let isCreator := task.createdBy == actor.id
      let isManagerPlus := actor.role == Role.superAdmin || actor.role == Role.manager
      let validDepartment := task.department == actor.department
      if !(isCreator || (isManagerPlus && validDepartment)) then
        UpdateResult.err 403 (some "PERMISSION_DENIED")
      else
        let data := stripProtected body
        let applied := applyUpdates task data
        let hasAssignedToChange :=
          task.taskType == TaskType.assignedTask &&
          (match data.assignedTo with
           | some l => !arraysEqual l task.assignedTo
           | none => false)
        if task.taskType == TaskType.assignedTask && data.assignedTo.isSome &&
            (users.countP (fun us =>
              (data.assignedTo.getD []).contains us.id &&
              us.company == actor.company &&
              us.department == actor.department) != (data.assignedTo.getD []).length) then
          UpdateResult.err 400 none
        else
          let changed := changedFields task applied data
          let hasImportantChange :=
            changed.any (fun f => importantFields.contains f) || hasAssignedToChange
          let newAssigneeNotifs :=
            if task.taskType == TaskType.assignedTask && hasAssignedToChange then
              ((applied.assignedTo.filter (fun i => !(task.assignedTo.contains i))).map
                (mkUpdateNotif actor task.id ("Assigned to task: " ++ applied.title)))
            else []
          let importantNotifs :=
            if hasImportantChange then
              (if !isCreator then
                [mkUpdateNotif actor task.id ("Task updated: " ++ applied.title) task.createdBy]
               else []) ++
              (if task.taskType == TaskType.assignedTask then
                ((task.assignedTo.filter (fun i => i != actor.id)).map
                  (mkUpdateNotif actor task.id ("Task modified: " ++ applied.title)))
               else []) ++
              (if task.taskType == TaskType.projectTask then
                (((users.filter (fun us =>
                    us.company == actor.company &&
                    us.department == actor.department &&
                    (us.role == Role.manager || us.role == Role.superAdmin) &&
                    us.id != actor.id)).map UserDoc.id).map
                  (mkUpdateNotif actor task.id ("Project task updated: " ++ applied.title)))
               else [])
            else []
          UpdateResult.updated applied (newAssigneeNotifs ++ importantNotifs)

/-- The task store after a PUT /api/tasks/:taskId request: on any error
the transaction is aborted and nothing persists; on success the saved
document replaces the old one. -/
def storeAfterUpdate (actor : UserDoc) (users : List UserDoc) (store : List TaskDoc)
    (taskId : RawId) (body : UpdateBody) : List TaskDoc :=
  match updateTaskById actor users store taskId body with
  | UpdateResult.err _ _ => store
  | UpdateResult.updated t _ => store.map (fun x => if x.id == t.id then t else x)

/-- The notification documents a PUT /api/tasks/:taskId request persists
(none on an error: the transaction is rolled back). -/
def notifsAfterUpdate (actor : UserDoc) (users : List UserDoc) (store : List TaskDoc)
    (taskId : RawId) (body : UpdateBody) : List Notif :=
  match updateTaskById actor users store taskId body with
  | UpdateResult.err _ _ => []
  | UpdateResult.updated _ ns => ns

/-- The TaskActivity documents a PUT /api/tasks/:taskId request creates:
none, ever — TaskController.js never references the TaskActivity model;
status is a protected field and stripped, and no branch of updateTaskById
writes an activity document. -/
def activitiesAfterUpdate (_actor : UserDoc) (_users : List UserDoc)
    (_store : List TaskDoc) (_taskId : RawId) (_body : UpdateBody) : List ActivityDoc :=
  []

/-! ## Predicates used in the claim statements -/

/-- An id resolves when some listed user carries it and lies in the
creator company and department with isActive true (the condition of the
assignee lookup in createTask). -/
def ResolvesActive (users : List UserDoc) (creator : UserDoc) (x : OID) : Prop :=
  ∃ us ∈ users, us.id = x ∧ us.company = creator.company ∧
    us.department = creator.department ∧ us.isActive = true

/-- An update payload identical to the current state of a task: every key
present in the body carries exactly the stored value. -/
def IdenticalPayload (b : UpdateBody) (t : TaskDoc) : Prop :=
  (b.title = none ∨ b.title = some t.title) ∧
  (b.description = none ∨ b.description = some t.description) ∧
  (b.location = none ∨ b.location = some t.location) ∧
  (b.dueDate = none ∨ b.dueDate = some t.dueDate) ∧
  (b.priority = none ∨ b.priority = some t.priority) ∧
  (b.assignedTo = none ∨ b.assignedTo = some t.assignedTo) ∧
  (b.clientInfo = none ∨ t.clientInfo = b.clientInfo) ∧
  (b.taskType = none ∨ b.taskType = some t.taskType) ∧
  (b.createdBy = none ∨ b.createdBy = some t.createdBy) ∧
  (b.department = none ∨ b.department = some t.department) ∧
  (b.status = none ∨ b.status = some t.status)

/-! ## Concrete sample documents and requests (used by the closed
evaluation theorems below) -/

/-- Sample SuperAdmin, the creator and acting principal of company 10,
department 20. -/
def wCreator : UserDoc := ⟨1, 10, 20, Role.superAdmin, true⟩

/-- Sample User-role colleague of wCreator. -/
def wColleague : UserDoc := ⟨2, 10, 20, Role.user, true⟩

/-- Sample active Manager in the department of wCreator. -/
def wActiveMgr : UserDoc := ⟨3, 10, 20, Role.manager, true⟩

/-- Sample deactivated Manager in the department of wCreator. -/
def wInactiveMgr : UserDoc := ⟨4, 10, 20, Role.manager, false⟩

/-- The user collection for the sample company. -/
def wUsers : List UserDoc := [wCreator, wColleague, wActiveMgr, wInactiveMgr]

/-- A well-formed AssignedTask create body whose single assignee id 99
resolves to no user. -/
def c1badBody : CreateBody :=
  { taskType := some "AssignedTask", title := some "t", description := some "d",
    location := some "l", dueDate := some (RawDate.valid 5), priority := none,
    status := none, assignedTo := some [⟨true, 99⟩], clientInfo := none }

/-- A well-formed AssignedTask create body listing the same resolvable
assignee id twice. -/
def c1dupBody : CreateBody := { c1badBody with assignedTo := some [⟨true, 2⟩, ⟨true, 2⟩] }

/-- A well-formed AssignedTask create body whose single assignee id 2
resolves to wColleague. -/
def c1okBody : CreateBody := { c1badBody with assignedTo := some [⟨true, 2⟩] }

/-- An AssignedTask create body that supplies the initial status
Completed. -/
def c9body : CreateBody := { c1okBody with status := some Status.completed }

/-- The task document createTask builds from c9body (fresh id 100). -/
def c9task : TaskDoc :=
  ⟨100, TaskType.assignedTask, "t", "d", "l", 5, "Medium", Status.completed, 1, 10, 20, [2], none⟩

/-- The notification list createTask inserts for c9body. -/
def c9notifs : List Notif := [⟨2, "TaskAssignment", "New assigned task: t", 100, 10, 20⟩]

/-- A well-formed ProjectTask create body. -/
def c5body : CreateBody :=
  { taskType := some "ProjectTask", title := some "t", description := some "d",
    location := some "l", dueDate := some (RawDate.valid 5), priority := none,
    status := none, assignedTo := none,
    clientInfo := some ⟨some "c", some "0912345678", none⟩ }

/-- The task document createTask builds from c5body (fresh id 100). -/
def c5task : TaskDoc :=
  ⟨100, TaskType.projectTask, "t", "d", "l", 5, "Medium", Status.toDo, 1, 10, 20, [],
   some ⟨"c", "+251912345678", none⟩⟩

/-- The notification list createTask inserts for c5body over wUsers:
exactly the active Manager wActiveMgr receives one. -/
def c5wNotifs : List Notif := [⟨3, "TaskAssignment", "New project task: t", 100, 10, 20⟩]

/-- Sample Manager of company 10 whose own department is 1. -/
def c2mgr : UserDoc := ⟨5, 10, 1, Role.manager, true⟩

/-- A ProjectTask of department 2 created by c2mgr (who has since been in
department 1). -/
def c2task : TaskDoc :=
  ⟨50, TaskType.projectTask, "t", "d", "l", 5, "Medium", Status.toDo, 5, 10, 2, [],
   some ⟨"c", "+251912345678", none⟩⟩

/-- An update body with no keys at all. -/
def emptyUpdate : UpdateBody := ⟨none, none, none, none, none, none, none, none, none, none, none⟩

/-- An update body identical to the stored state of c2task. -/
def c6body : UpdateBody :=
  { emptyUpdate with
    title := some "t"
    dueDate := some 5
    priority := some "Medium"
    status := some Status.toDo }

/-- An update body renaming the title (and trying to overwrite every
protected field). -/
def c7body : UpdateBody :=
  { emptyUpdate with
    title := some "new"
    taskType := some TaskType.assignedTask
    createdBy := some 9
    department := some 9
    status := some Status.completed }

/-- c2task after the c7body update: only the title moved. -/
def c7task2 : TaskDoc := { c2task with title := "new" }

/-- An AssignedTask of department 20 assigned to wColleague. -/
def tA1 : TaskDoc :=
  ⟨201, TaskType.assignedTask, "a", "d", "l", 9, "High", Status.toDo, 1, 10, 20, [2], none⟩

/-- An AssignedTask of department 20 assigned to wActiveMgr only. -/
def tA2 : TaskDoc :=
  ⟨202, TaskType.assignedTask, "a", "d", "l", 9, "High", Status.toDo, 1, 10, 20, [3], none⟩

/-- A ProjectTask of department 30 (used by the SuperAdmin department
override). -/
def tP3 : TaskDoc :=
  ⟨203, TaskType.projectTask, "a", "d", "l", 9, "High", Status.toDo, 1, 10, 30, [],
   some ⟨"c", "+251912345678", none⟩⟩

/-- The task store for the read operations. -/
def wStore : List TaskDoc := [tA1, tA2, tP3]

instance (users : List UserDoc) (creator : UserDoc) (x : OID) :
    Decidable (ResolvesActive users creator x) := by
  unfold ResolvesActive
  infer_instance

instance (b : UpdateBody) (t : TaskDoc) : Decidable (IdenticalPayload b t) := by
  unfold IdenticalPayload
  infer_instance

/-! ## Helper lemmas -/

/-- Counting lemma behind the createTask assignee check: filtering users
on membership of their id in a request list S (plus any further test q)
yields as many documents as S has entries exactly when S has no
duplicates and every entry of S is carried by some listed user passing q;
user ids are assumed pairwise distinct, as _id is the primary key. -/
theorem length_filter_contains_eq_iff
    (users : List UserDoc) (q : UserDoc → Bool) (S : List OID)
    (hu : (users.map UserDoc.id).Nodup) :
    (users.filter (fun us => S.contains us.id && q us)).length = S.length ↔
      (S.Nodup ∧ ∀ s ∈ S, ∃ us ∈ users, us.id = s ∧ q us = true) := by
  classical
  set T := users.filter (fun us => S.contains us.id && q us) with hT
  set I := T.map UserDoc.id with hI
  have hTsub : T.Sublist users := List.filter_sublist users
  have hIsub : I.Sublist (users.map UserDoc.id) := hTsub.map _
  have hInodup : I.Nodup := hu.sublist hIsub
  have hImemS : ∀ x ∈ I, x ∈ S := by
    intro x hx
    rcases List.mem_map.1 hx with ⟨us, husT, rfl⟩
    have hp := List.of_mem_filter husT
    rw [Bool.and_eq_true] at hp
    simpa using hp.1
  have hIF : I.toFinset ⊆ S.toFinset := by
    intro x hx
    exact List.mem_toFinset.2 (hImemS x (List.mem_toFinset.1 hx))
  have hcardI : I.toFinset.card = T.length := by
    rw [List.toFinset_card_of_nodup hInodup, hI, List.length_map]
  constructor
  · intro hlen
    have hcardS : S.toFinset.card ≤ S.length := List.toFinset_card_le S
    have hle : S.toFinset.card ≤ I.toFinset.card := by omega
    have heqF : I.toFinset = S.toFinset := Finset.eq_of_subset_of_card_le hIF hle
    have hSlen : S.toFinset.card = S.length := by rw [← heqF]; omega
    have hSnodup : S.Nodup := by
      have := Multiset.toFinset_card_eq_card_iff_nodup (m := (S : Multiset OID))
      rw [Multiset.coe_nodup] at this
      apply this.mp
      simpa using hSlen
    refine ⟨hSnodup, ?_⟩
    intro s hs
    have : s ∈ I := by
      have : s ∈ I.toFinset := heqF ▸ List.mem_toFinset.2 hs
      exact List.mem_toFinset.1 this
    rcases List.mem_map.1 this with ⟨us, husT, husid⟩
    have hmem := List.mem_of_mem_filter husT
    have hp := List.of_mem_filter husT
    rw [Bool.and_eq_true] at hp
    exact ⟨us, hmem, husid, hp.2⟩
  · rintro ⟨hSnodup, hres⟩
    have hSI : ∀ s ∈ S, s ∈ I := by
      intro s hs
      rcases hres s hs with ⟨us, husUsers, hid, hq⟩
      have husT : us ∈ T := by
        refine List.mem_filter.2 ⟨husUsers, ?_⟩
        rw [Bool.and_eq_true]
        refine ⟨by rw [hid]; simpa using hs, hq⟩
      exact List.mem_map.2 ⟨us, husT, hid⟩
    have heqF : I.toFinset = S.toFinset := by
      apply Finset.Subset.antisymm hIF
      intro x hx
      exact List.mem_toFinset.2 (hSI x (List.mem_toFinset.1 hx))
    have : T.length = I.toFinset.card := hcardI.symm
    rw [this, heqF, List.toFinset_card_of_nodup hSnodup]

/-- When the filter of length_filter_contains_eq_iff hits as many users
as S has entries, the matched ids cover S exactly, as finsets. -/
theorem filter_contains_toFinset_eq
    (users : List UserDoc) (q : UserDoc → Bool) (S : List OID)
    (hu : (users.map UserDoc.id).Nodup)
    (hlen : (users.filter (fun us => S.contains us.id && q us)).length = S.length) :
    ((users.filter (fun us => S.contains us.id && q us)).map UserDoc.id).toFinset = S.toFinset := by
  classical
  set T := users.filter (fun us => S.contains us.id && q us) with hT
  set I := T.map UserDoc.id with hI
  have hTsub : T.Sublist users := List.filter_sublist users
  have hInodup : I.Nodup := hu.sublist (hTsub.map _)
  have hImemS : ∀ x ∈ I, x ∈ S := by
    intro x hx
    rcases List.mem_map.1 hx with ⟨us, husT, rfl⟩
    have hp := List.of_mem_filter husT
    rw [Bool.and_eq_true] at hp
    simpa using hp.1
  have hIF : I.toFinset ⊆ S.toFinset := by
    intro x hx
    exact List.mem_toFinset.2 (hImemS x (List.mem_toFinset.1 hx))
  have hcardI : I.toFinset.card = T.length := by
    rw [List.toFinset_card_of_nodup hInodup, hI, List.length_map]
  have hcardS : S.toFinset.card ≤ S.length := List.toFinset_card_le S
  exact Finset.eq_of_subset_of_card_le hIF (by omega)

/-- Filtering a list of ids on being different from c is, as a finset,
erasing c. -/
theorem filter_ne_toFinset_erase (l : List OID) (c : OID) :
    (l.filter (fun i => i != c)).toFinset = l.toFinset.erase c := by
  ext x
  simp [List.mem_filter, Finset.mem_erase, bne_iff_ne, and_comm]

/-- Symbolic evaluation of createTask on a well-formed AssignedTask
request whose assignee lookup matches the request list in length. -/
theorem createTask_assigned_eq
    (creator : UserDoc) (users : List UserDoc) (now : Int) (freshId : OID)
    (body : CreateBody) (ids : List RawId) (d : Int)
    (hts : strMissing body.title = false) (hds : strMissing body.description = false)
    (hls : strMissing body.location = false)
    (hty : body.taskType = some "AssignedTask")
    (hd : body.dueDate = some (RawDate.valid d)) (hdn : ¬ d < now)
    (hids : body.assignedTo = some ids) (hne : ids ≠ [])
    (hvf : ids.any (fun i => !i.validFormat) = false)
    (hlen : (resolveAssignees users creator ids).length = ids.length) :
    createTask creator users now freshId body =
      CreateResult.created
        { id := freshId, taskType := TaskType.assignedTask,
          title := jsTrim (body.title.getD ""), description := jsTrim (body.description.getD ""),
          location := jsTrim (body.location.getD ""), dueDate := d,
          priority := body.priority.getD "Medium", status := body.status.getD Status.toDo,
          createdBy := creator.id, company := creator.company, department := creator.department,
          assignedTo := ids.map RawId.oid, clientInfo := none }
        ((((resolveAssignees users creator ids).map UserDoc.id).filter (fun i => i != creator.id)).map
          (mkCreateNotif creator TaskType.assignedTask freshId (jsTrim (body.title.getD "")))) := by
  have hmt : strMissing (some "AssignedTask") = false := by rfl
  unfold createTask
  simp only [hts, hds, hls, hty, hd, hids, hlen, hmt]
  simp [hne, hvf, hdn, List.isEmpty_iff]

/-- Symbolic evaluation of createTask on a well-formed AssignedTask
request whose assignee lookup count differs from the request list
length: the INVALID_ASSIGNED_USERS error. -/
theorem createTask_assigned_err
    (creator : UserDoc) (users : List UserDoc) (now : Int) (freshId : OID)
    (body : CreateBody) (ids : List RawId) (d : Int)
    (hts : strMissing body.title = false) (hds : strMissing body.description = false)
    (hls : strMissing body.location = false)
    (hty : body.taskType = some "AssignedTask")
    (hd : body.dueDate = some (RawDate.valid d)) (hdn : ¬ d < now)
    (hids : body.assignedTo = some ids) (hne : ids ≠ [])
    (hvf : ids.any (fun i => !i.validFormat) = false)
    (hlen : (resolveAssignees users creator ids).length ≠ ids.length) :
    createTask creator users now freshId body = CreateResult.err 404 "INVALID_ASSIGNED_USERS" := by
  have hmt : strMissing (some "AssignedTask") = false := by rfl
  unfold createTask
  simp only [hts, hds, hls, hty, hd, hids, hmt]
  simp [hne, hvf, hdn, List.isEmpty_iff, hlen]

/-- Every committed createTask carries the body status (default To Do),
the body priority (default Medium) and the creator identity. -/
theorem createTask_created_inv
    (creator : UserDoc) (users : List UserDoc) (now : Int) (freshId : OID)
    (body : CreateBody) (t : TaskDoc) (ns : List Notif)
    (h : createTask creator users now freshId body = CreateResult.created t ns) :
    t.status = body.status.getD Status.toDo ∧
    t.priority = body.priority.getD "Medium" ∧
    t.createdBy = creator.id ∧ t.company = creator.company ∧
    t.department = creator.department ∧ t.id = freshId := by
  simp only [createTask] at h
  repeat' split at h
  all_goals simp_all [CreateResult.created.injEq]
  all_goals obtain ⟨ht, hn⟩ := h
  all_goals subst ht
  all_goals simp

/-- The user field of a creation notification is its receiver. -/
theorem mkCreateNotif_user (c : UserDoc) (ty : TaskType) (fid : OID) (ti : String) (r : OID) :
    (mkCreateNotif c ty fid ti r).user = r := rfl

/-- An update whose stripped body repeats the stored values leaves the
document unchanged. -/
theorem applyUpdates_ident (b : UpdateBody) (t : TaskDoc) (h : IdenticalPayload b t) :
    applyUpdates t (stripProtected b) = t := by
  obtain ⟨h1, h2, h3, h4, h5, h6, h7, -, -, -, -⟩ := h
  unfold applyUpdates stripProtected
  rcases h1 with h1 | h1 <;> rcases h2 with h2 | h2 <;> rcases h3 with h3 | h3 <;>
    rcases h4 with h4 | h4 <;> rcases h5 with h5 | h5 <;> rcases h6 with h6 | h6 <;>
    rcases h7 with h7 | h7 <;> cases hbc : b.clientInfo <;>
    (try simp_all) <;> (try rw [← h7])

/-- Every document getAllTasks returns lies in the principal company and
in the effective department of the query. -/
theorem getAllTasks_scope (u : UserDoc) (store : List TaskDoc) (p : ListParams) (t : TaskDoc)
    (h : t ∈ docsOf (getAllTasks u store p)) :
    t.company = u.company ∧
    t.department = (match p.departmentId with
      | some r => if u.role == Role.superAdmin then r.oid else u.department
      | none => u.department) := by
  unfold getAllTasks at h
  split at h
  · simp [docsOf] at h
  · simp only [docsOf] at h
    rw [List.mem_filter] at h
    obtain ⟨-, hcond⟩ := h
    have h1 := ((Bool.and_eq_true _ _).mp hcond).1
    have h2 := ((Bool.and_eq_true _ _).mp h1).1
    rw [Bool.and_eq_true] at h2
    exact ⟨by simpa using h2.1, by simpa using h2.2⟩

/-! ## Claim theorems -/

/-- C1 (amended): on a well-formed AssignedTask create request (present
fields, valid future due date, non-empty valid-format assignee list),
when the assignee id list is duplicate-free and every id resolves to an
active user of the creator company and department the creation commits,
and otherwise the request fails with 404 INVALID_ASSIGNED_USERS - the
code of the source, where the claim said INVALID_ASSIGNEES - before any
task or notification is persisted. -/
theorem c1_assignee_validation
    (creator : UserDoc) (users : List UserDoc) (now : Int) (freshId : OID)
    (body : CreateBody) (ids : List RawId) (d : Int)
    (hu : (users.map UserDoc.id).Nodup)
    (hts : strMissing body.title = false) (hds : strMissing body.description = false)
    (hls : strMissing body.location = false)
    (hty : body.taskType = some "AssignedTask")
    (hd : body.dueDate = some (RawDate.valid d)) (hdn : ¬ d < now)
    (hids : body.assignedTo = some ids) (hne : ids ≠ [])
    (hvf : ids.any (fun i => !i.validFormat) = false) :
    if (ids.map RawId.oid).Nodup ∧ ∀ x ∈ ids.map RawId.oid, ResolvesActive users creator x
    then ∃ t ns, createTask creator users now freshId body = CreateResult.created t ns
    else createTask creator users now freshId body = CreateResult.err 404 "INVALID_ASSIGNED_USERS" := by
  have hkey := length_filter_contains_eq_iff users
      (fun us => us.company == creator.company && (us.department == creator.department && us.isActive))
      (ids.map RawId.oid) hu
  have hres : resolveAssignees users creator ids =
      users.filter (fun us => (ids.map RawId.oid).contains us.id &&
        (us.company == creator.company && (us.department == creator.department && us.isActive))) := by
    unfold resolveAssignees
    apply List.filter_congr
    intro us _
    simp [Bool.and_assoc]
  have htr : ∀ s, (∃ us ∈ users, us.id = s ∧
        (us.company == creator.company && (us.department == creator.department && us.isActive)) = true) ↔
      ResolvesActive users creator s := by
    intro s
    simp [ResolvesActive, Bool.and_eq_true, beq_iff_eq, and_assoc]
  have hcond : (resolveAssignees users creator ids).length = ids.length ↔
      ((ids.map RawId.oid).Nodup ∧ ∀ x ∈ ids.map RawId.oid, ResolvesActive users creator x) := by
    rw [hres]
    constructor
    · intro hl
      have hl2 : (users.filter (fun us => (ids.map RawId.oid).contains us.id &&
          (us.company == creator.company && (us.department == creator.department && us.isActive)))).length =
          (ids.map RawId.oid).length := by
        rw [hl, List.length_map]
      obtain ⟨h1, h2⟩ := hkey.mp hl2
      exact ⟨h1, fun x hx => (htr x).mp (h2 x hx)⟩
    · rintro ⟨h1, h2⟩
      have := hkey.mpr ⟨h1, fun s hs => (htr s).mpr (h2 s hs)⟩
      rw [this, List.length_map]
  by_cases hc : (ids.map RawId.oid).Nodup ∧ ∀ x ∈ ids.map RawId.oid, ResolvesActive users creator x
  · rw [if_pos hc]
    exact ⟨_, _, createTask_assigned_eq creator users now freshId body ids d
      hts hds hls hty hd hdn hids hne hvf (hcond.mpr hc)⟩
  · rw [if_neg hc]
    exact createTask_assigned_err creator users now freshId body ids d
      hts hds hls hty hd hdn hids hne hvf (fun hEq => hc (hcond.mp hEq))

/-- C1 counterexample: a well-formed request with one unresolvable
assignee fails with the code INVALID_ASSIGNED_USERS, which differs from
the claimed INVALID_ASSIGNEES; moreover a list naming the same
resolvable active colleague twice also fails with that code although
every listed id resolves. -/
theorem c1_counterexample :
    createTask wCreator wUsers 0 100 c1badBody = CreateResult.err 404 "INVALID_ASSIGNED_USERS" ∧
    ("INVALID_ASSIGNED_USERS" == "INVALID_ASSIGNEES") = false ∧
    createTask wCreator wUsers 0 100 c1dupBody = CreateResult.err 404 "INVALID_ASSIGNED_USERS" ∧
    c1dupBody.assignedTo = some [⟨true, 2⟩, ⟨true, 2⟩] ∧
    ResolvesActive wUsers wCreator 2 := by
  refine ⟨by decide, by decide, by decide, rfl, by decide⟩

/-- C1 witness: the amended claim at a resolvable single-assignee
request, the hypotheses discharged by evaluation. -/
theorem c1_assignee_validation_witness :
    if (([⟨true, 2⟩] : List RawId).map RawId.oid).Nodup ∧
        ∀ x ∈ ([⟨true, 2⟩] : List RawId).map RawId.oid, ResolvesActive wUsers wCreator x
    then ∃ t ns, createTask wCreator wUsers 0 100 c1okBody = CreateResult.created t ns
    else createTask wCreator wUsers 0 100 c1okBody = CreateResult.err 404 "INVALID_ASSIGNED_USERS" :=
  c1_assignee_validation wCreator wUsers 0 100 c1okBody [⟨true, 2⟩] 5
    (by decide) (by decide) (by decide) (by decide) rfl rfl (by decide) rfl
    (by decide) (by decide)

/-- C2 (amended): with a valid task id resolving to a stored task, a
committed update implies the actor is a SuperAdmin or Manager and, when
not the task creator, lies in the task department; a User-role
non-creator is denied with PERMISSION_DENIED; and any error leaves every
stored task untouched. The claim as frozen also required a Manager or
SuperAdmin who IS the creator to lie in the task department, which the
counterexample refutes. -/
theorem c2_update_authorization
    (actor : UserDoc) (users : List UserDoc) (store : List TaskDoc)
    (taskId : RawId) (body : UpdateBody) (t : TaskDoc)
    (hvf : taskId.validFormat = true)
    (hfind : store.find? (fun x => x.id == taskId.oid) = some t) :
    ((∃ t2 ns, updateTaskById actor users store taskId body = UpdateResult.updated t2 ns) →
       ((actor.role = Role.superAdmin ∨ actor.role = Role.manager) ∧
        (t.createdBy ≠ actor.id → t.department = actor.department))) ∧
    (actor.role = Role.user → t.createdBy ≠ actor.id →
       updateTaskById actor users store taskId body = UpdateResult.err 403 (some "PERMISSION_DENIED") ∧
       storeAfterUpdate actor users store taskId body = store) ∧
    (∀ st code, updateTaskById actor users store taskId body = UpdateResult.err st code →
       storeAfterUpdate actor users store taskId body = store) := by
  have hstore : ∀ st code, updateTaskById actor users store taskId body = UpdateResult.err st code →
      storeAfterUpdate actor users store taskId body = store := by
    intro st code h
    unfold storeAfterUpdate
    rw [h]
  refine ⟨?_, ?_, hstore⟩
  · rintro ⟨t2, ns, hupd⟩
    unfold updateTaskById at hupd
    rw [hvf] at hupd
    by_cases hrole : actor.role = Role.user
    · simp [hrole] at hupd
    · have hrb : (actor.role == Role.user) = false := by
        simpa using hrole
      rw [hrb] at hupd
      simp only [Bool.not_true, if_false, Bool.false_eq_true] at hupd
      rw [hfind] at hupd
      dsimp only at hupd
      by_cases hauth : (t.createdBy == actor.id ||
          ((actor.role == Role.superAdmin || actor.role == Role.manager) &&
            (t.department == actor.department))) = true
      · constructor
        · cases hr : actor.role with
          | superAdmin => exact Or.inl rfl
          | manager => exact Or.inr rfl
          | user => exact absurd hr hrole
        · intro hnc
          rcases Bool.or_eq_true _ _ |>.mp hauth with h1 | h2
          · exact absurd (by simpa using h1) hnc
          · rw [Bool.and_eq_true] at h2
            simpa using h2.2
      · rw [if_pos (by simp only [Bool.not_eq_true] at hauth ⊢; simp [hauth])] at hupd
        exact UpdateResult.noConfusion hupd
  · intro hrole hnc
    have h1 : updateTaskById actor users store taskId body =
        UpdateResult.err 403 (some "PERMISSION_DENIED") := by
      unfold updateTaskById
      rw [hvf]
      simp [hrole]
    exact ⟨h1, hstore _ _ h1⟩

/-- C2 counterexample: a Manager of department 1 who created a task
owned by department 2 is permitted to update it although they do not
belong to the task department. -/
theorem c2_counterexample :
    updateTaskById c2mgr [] [c2task] ⟨true, 50⟩ emptyUpdate = UpdateResult.updated c2task [] ∧
    c2mgr.role = Role.manager ∧
    (c2task.department == c2mgr.department) = false ∧
    c2task.createdBy = c2mgr.id := by
  refine ⟨by decide, rfl, by decide, rfl⟩

/-- C2 witness: a User-role non-creator is denied with PERMISSION_DENIED
and the store is unchanged. -/
theorem c2_update_authorization_witness :
    updateTaskById wColleague wUsers [c2task] ⟨true, 50⟩ emptyUpdate =
      UpdateResult.err 403 (some "PERMISSION_DENIED") ∧
    storeAfterUpdate wColleague wUsers [c2task] ⟨true, 50⟩ emptyUpdate = [c2task] :=
  (c2_update_authorization wColleague wUsers [c2task] ⟨true, 50⟩ emptyUpdate c2task rfl
    (by decide)).2.1 rfl (by decide)

/-- C3: the guard cascade checks unverified account, deactivated user,
deactivated company, inactive subscription, deactivated department in
exactly that order with the claimed codes, except that the
deactivated-company branch answers 401 with an empty JSON body and no
error code at all - the code defect the first evaluation exhibits -
instead of the claimed TENANT_DEACTIVATED. -/
theorem c3_guard_company_branch_empty :
    verifyActivationChecks ⟨true, true, false, "active", true⟩ = GuardResult.reject 401 none ∧
    verifyActivationChecks ⟨false, false, false, "x", false⟩ = GuardResult.reject 401 (some "ACCOUNT_NOT_VERIFIED") ∧
    verifyActivationChecks ⟨true, false, false, "x", false⟩ = GuardResult.reject 401 (some "USER_DEACTIVATED") ∧
    verifyActivationChecks ⟨true, true, true, "inactive", false⟩ = GuardResult.reject 403 (some "SUBSCRIPTION_INACTIVE") ∧
    verifyActivationChecks ⟨true, true, true, "active", false⟩ = GuardResult.reject 401 (some "DEPARTMENT_DEACTIVATED") ∧
    verifyActivationChecks ⟨true, true, true, "active", true⟩ = GuardResult.ok := by
  decide

/-- C4: a status transition is accepted exactly when the (from, to) pair
lies in the fixed table of the claim, and an accepted transition appends
exactly one activity record while a rejected one appends none. -/
theorem c4_transition_table :
    (∀ f s : Status, (validTransitions f).contains s = true ↔ (f, s) ∈ claimTransitionTable) ∧
    (∀ (t : TaskDoc) (perf : OID) (s : Status) (acts : List ActivityDoc),
      (logStatusChange t perf s acts).map (fun r => r.2) =
        (if (t.status, s) ∈ claimTransitionTable
         then some (acts ++ [⟨t.id, perf, t.status, s⟩]) else none)) := by
  have hA : ∀ f s : Status, (validTransitions f).contains s = true ↔ (f, s) ∈ claimTransitionTable := by
    decide
  refine ⟨hA, ?_⟩
  intro t perf s acts
  unfold logStatusChange
  by_cases hc : (validTransitions t.status).contains s = true
  · rw [if_pos hc, if_pos ((hA _ _).mp hc)]
    rfl
  · rw [if_neg hc, if_neg fun hmem => hc ((hA _ _).mpr hmem)]
    rfl

/-- C5 (amended): a committed creation never notifies the creator; for
an AssignedTask the recipient set is exactly the assignees minus the
creator, and for a ProjectTask exactly the ACTIVE Managers and
SuperAdmins of the creator company and department minus the creator
(the isActive restriction is what the frozen claim omitted). -/
theorem c5_notification_recipients
    (creator : UserDoc) (users : List UserDoc) (now : Int) (freshId : OID)
    (body : CreateBody) (t : TaskDoc) (ns : List Notif)
    (hu : (users.map UserDoc.id).Nodup)
    (hc : createTask creator users now freshId body = CreateResult.created t ns) :
    creator.id ∉ ns.map Notif.user ∧
    (t.taskType = TaskType.assignedTask →
      (ns.map Notif.user).toFinset = t.assignedTo.toFinset.erase creator.id) ∧
    (t.taskType = TaskType.projectTask →
      (ns.map Notif.user).toFinset =
        ((findManagersAndAdmins users creator).map UserDoc.id).toFinset.erase creator.id) := by
  simp only [createTask] at hc
  repeat' split at hc
  all_goals try exact CreateResult.noConfusion hc
  · rename_i x ids hids hempty hvf hlenb
    rw [CreateResult.created.injEq] at hc
    obtain ⟨ht, hn⟩ := hc
    subst hn
    subst ht
    have hlen : (resolveAssignees users creator ids).length = ids.length := by
      simpa using hlenb
    refine ⟨?_, ?_, ?_⟩
    · simp only [List.map_map, Function.comp_def, mkCreateNotif_user]
      simp [List.mem_filter]
    · intro _
      simp only [List.map_map, Function.comp_def, mkCreateNotif_user, List.map_id']
      rw [filter_ne_toFinset_erase]
      have hres : resolveAssignees users creator ids =
          users.filter (fun us => (ids.map RawId.oid).contains us.id &&
            (us.company == creator.company && (us.department == creator.department && us.isActive))) := by
        unfold resolveAssignees
        apply List.filter_congr
        intro us _
        simp [Bool.and_assoc]
      have hlen2 : (users.filter (fun us => (ids.map RawId.oid).contains us.id &&
          (us.company == creator.company && (us.department == creator.department && us.isActive)))).length =
          (ids.map RawId.oid).length := by
        rw [← hres, hlen, List.length_map]
      have := filter_contains_toFinset_eq users
        (fun us => us.company == creator.company && (us.department == creator.department && us.isActive))
        (ids.map RawId.oid) hu hlen2
      rw [hres]
      rw [this]
    · intro h2
      simp at h2
  · rename_i hclientFalsy
    rw [CreateResult.created.injEq] at hc
    obtain ⟨ht, hn⟩ := hc
    subst hn
    subst ht
    refine ⟨?_, ?_, ?_⟩
    · simp only [List.map_map, Function.comp_def, mkCreateNotif_user]
      simp [List.mem_filter]
    · intro h2
      simp at h2
    · intro _
      simp only [List.map_map, Function.comp_def, mkCreateNotif_user, List.map_id']
      rw [filter_ne_toFinset_erase]

/-- C5 counterexample: a ProjectTask creation in a department whose only
other Manager is deactivated notifies nobody, while the frozen claim
(all Managers and SuperAdmins of the department except the creator)
names that Manager. -/
theorem c5_counterexample :
    createTask wCreator [wCreator, wInactiveMgr] 0 100 c5body = CreateResult.created c5task [] ∧
    wInactiveMgr.role = Role.manager ∧
    wInactiveMgr.department = wCreator.department ∧
    wInactiveMgr.company = wCreator.company ∧
    (wInactiveMgr.id == wCreator.id) = false := by
  refine ⟨by decide, rfl, rfl, rfl, by decide⟩

/-- C5 witness: the amended claim at a ProjectTask creation whose
department holds one active Manager besides the creator. -/
theorem c5_notification_recipients_witness :
    wCreator.id ∉ c5wNotifs.map Notif.user ∧
    (c5task.taskType = TaskType.assignedTask →
      (c5wNotifs.map Notif.user).toFinset = c5task.assignedTo.toFinset.erase wCreator.id) ∧
    (c5task.taskType = TaskType.projectTask →
      (c5wNotifs.map Notif.user).toFinset =
        ((findManagersAndAdmins wUsers wCreator).map UserDoc.id).toFinset.erase wCreator.id) :=
  c5_notification_recipients wCreator wUsers 0 100 c5body c5task c5wNotifs (by decide) (by decide)

/-- C6: an update request whose payload repeats the stored state of the
task persists no notification document and no activity document,
whatever the actor and whatever branch the request takes. -/
theorem c6_no_change_no_side_effects
    (actor : UserDoc) (users : List UserDoc) (store : List TaskDoc)
    (taskId : RawId) (body : UpdateBody) (t : TaskDoc)
    (hfind : store.find? (fun x => x.id == taskId.oid) = some t)
    (hident : IdenticalPayload body t) :
    notifsAfterUpdate actor users store taskId body = [] ∧
    activitiesAfterUpdate actor users store taskId body = [] := by
  have happ := applyUpdates_ident body t hident
  refine ⟨?_, rfl⟩
  unfold notifsAfterUpdate updateTaskById
  rw [hfind]
  dsimp only
  rw [happ]
  have hch : (match (stripProtected body).assignedTo with
      | some l => !arraysEqual l t.assignedTo
      | none => false) = false := by
    have h6 := hident.2.2.2.2.2.1
    rcases h6 with h6 | h6 <;> simp [stripProtected, h6, arraysEqual]
  rw [hch]
  have hcf : changedFields t t (stripProtected body) = [] := by
    unfold changedFields
    simp [arraysEqual]
  rw [hcf]
  simp only [Bool.and_false, List.any_nil, Bool.false_or, Bool.or_false, if_false,
    Bool.false_eq_true, List.append_nil, List.nil_append]
  by_cases hb1 : (!taskId.validFormat) = true
  · rw [if_pos hb1]
  · rw [if_neg hb1]
    by_cases hb2 : (actor.role == Role.user) = true
    · rw [if_pos hb2]
    · rw [if_neg hb2]
      by_cases hb3 : (!(t.createdBy == actor.id ||
          (actor.role == Role.superAdmin || actor.role == Role.manager) &&
            t.department == actor.department)) = true
      · rw [if_pos hb3]
      · rw [if_neg hb3]
        by_cases hb4 : (t.taskType == TaskType.assignedTask && (stripProtected body).assignedTo.isSome &&
            List.countP (fun us => ((stripProtected body).assignedTo.getD []).contains us.id &&
              us.company == actor.company && us.department == actor.department) users !=
            ((stripProtected body).assignedTo.getD []).length) = true
        · rw [if_pos hb4]
        · rw [if_neg hb4]

/-- C6 witness: the identical-payload update of a stored task by its
creating Manager persists nothing. -/
theorem c6_no_change_no_side_effects_witness :
    notifsAfterUpdate c2mgr wUsers [c2task] ⟨true, 50⟩ c6body = [] ∧
    activitiesAfterUpdate c2mgr wUsers [c2task] ⟨true, 50⟩ c6body = [] :=
  c6_no_change_no_side_effects c2mgr wUsers [c2task] ⟨true, 50⟩ c6body c2task
    (by decide) (by decide)

/-- C7: whatever the request body of a committed update contains, the
saved task keeps the taskType, createdBy, department and status of the
stored task: those keys are stripped before application. -/
theorem c7_protected_fields_immutable
    (actor : UserDoc) (users : List UserDoc) (store : List TaskDoc)
    (taskId : RawId) (body : UpdateBody) (t t2 : TaskDoc) (ns : List Notif)
    (hfind : store.find? (fun x => x.id == taskId.oid) = some t)
    (hupd : updateTaskById actor users store taskId body = UpdateResult.updated t2 ns) :
    t2.taskType = t.taskType ∧ t2.createdBy = t.createdBy ∧
    t2.department = t.department ∧ t2.status = t.status := by
  unfold updateTaskById at hupd
  rw [hfind] at hupd
  dsimp only at hupd
  repeat' split at hupd
  all_goals try exact UpdateResult.noConfusion hupd
  all_goals rw [UpdateResult.updated.injEq] at hupd
  all_goals obtain ⟨ht, -⟩ := hupd
  all_goals subst ht
  all_goals simp [applyUpdates, stripProtected]

/-- C7 witness: an update that renames the title and tries to overwrite
every protected field leaves taskType, createdBy, department and status
unchanged. -/
theorem c7_protected_fields_immutable_witness :
    c7task2.taskType = c2task.taskType ∧ c7task2.createdBy = c2task.createdBy ∧
    c7task2.department = c2task.department ∧ c7task2.status = c2task.status :=
  c7_protected_fields_immutable c2mgr wUsers [c2task] ⟨true, 50⟩ c7body c2task c7task2 []
    (by decide) (by decide)

/-- C8: a User-role principal only ever lists AssignedTask documents
naming them in assignedTo; fetching a stored task they are not assigned
to yields FORBIDDEN, and fetching an absent id yields TASK_NOT_FOUND. -/
theorem c8_user_task_visibility
    (u : UserDoc) (store : List TaskDoc) (p : ListParams) (t : TaskDoc) (tid : RawId) :
    (u.role = Role.user → t ∈ docsOf (getAllTasks u store p) →
       t.taskType = TaskType.assignedTask ∧ u.id ∈ t.assignedTo) ∧
    (u.role = Role.user → tid.validFormat = true →
       store.find? (fun x => x.id == tid.oid) = some t → u.id ∉ t.assignedTo →
       getTaskById u store tid = GetResult.err 403 "FORBIDDEN") ∧
    (tid.validFormat = true → store.find? (fun x => x.id == tid.oid) = none →
       getTaskById u store tid = GetResult.err 404 "TASK_NOT_FOUND") := by
  refine ⟨?_, ?_, ?_⟩
  · intro hrole hmem
    unfold getAllTasks at hmem
    split at hmem
    · simp [docsOf] at hmem
    · simp only [docsOf] at hmem
      rw [List.mem_filter] at hmem
      obtain ⟨-, hcond⟩ := hmem
      have hd := ((Bool.and_eq_true _ _).mp hcond).2
      rw [hrole] at hd
      simp at hd
      exact hd
  · intro hrole hvf hfind hnmem
    unfold getTaskById
    rw [hvf]
    rw [if_neg (by simp)]
    rw [hfind]
    dsimp only
    rw [if_pos (by simp [hrole]; simpa using hnmem)]
  · intro hvf hfind
    unfold getTaskById
    rw [hvf]
    rw [if_neg (by simp)]
    rw [hfind]

/-- C8 witness: the User-role colleague sees the task assigned to them,
is refused the task assigned to someone else, and gets TASK_NOT_FOUND on
an id no task carries. -/
theorem c8_user_task_visibility_witness :
    (tA1.taskType = TaskType.assignedTask ∧ wColleague.id ∈ tA1.assignedTo) ∧
    getTaskById wColleague wStore ⟨true, 202⟩ = GetResult.err 403 "FORBIDDEN" ∧
    getTaskById wColleague wStore ⟨true, 999⟩ = GetResult.err 404 "TASK_NOT_FOUND" :=
  ⟨(c8_user_task_visibility wColleague wStore ⟨none, none, none⟩ tA1 ⟨true, 202⟩).1 rfl (by decide),
   (c8_user_task_visibility wColleague wStore ⟨none, none, none⟩ tA2 ⟨true, 202⟩).2.1 rfl rfl
     (by decide) (by decide),
   (c8_user_task_visibility wColleague wStore ⟨none, none, none⟩ tA2 ⟨true, 999⟩).2.2 rfl (by decide)⟩

/-- C9: whatever a creation request stores, the status is copied from
the request body (default To Do when absent) and the priority defaults
to Medium - no transition-table check guards the initial status. -/
theorem c9_initial_status_unchecked
    (creator : UserDoc) (users : List UserDoc) (now : Int) (freshId : OID)
    (body : CreateBody) (t : TaskDoc) (ns : List Notif)
    (h : createTask creator users now freshId body = CreateResult.created t ns) :
    t.status = body.status.getD Status.toDo ∧ t.priority = body.priority.getD "Medium" :=
  ⟨(createTask_created_inv creator users now freshId body t ns h).1,
   (createTask_created_inv creator users now freshId body t ns h).2.1⟩

/-- C9 witness: a concrete creation whose body carries status Completed
commits with exactly that status. -/
theorem c9_initial_status_unchecked_witness :
    c9body.status = some Status.completed ∧
    c9task.status = c9body.status.getD Status.toDo ∧
    c9task.priority = c9body.priority.getD "Medium" :=
  ⟨rfl, c9_initial_status_unchecked wCreator wUsers 0 100 c9body c9task c9notifs (by decide)⟩

/-- C10: a departmentId parameter of invalid format fails the listing
with INVALID_DEPARTMENT_ID for every role; a valid one is silently
ignored for any non-SuperAdmin (the result equals the parameterless
query and stays in the principal company and department) and moves the
department filter only for a SuperAdmin. -/
theorem c10_department_param
    (u : UserDoc) (store : List TaskDoc) (p : ListParams) (r : RawId) (t : TaskDoc) :
    (p.departmentId = some r → r.validFormat = false →
       getAllTasks u store p = ListResult.err 400 "INVALID_DEPARTMENT_ID") ∧
    (p.departmentId = some r → r.validFormat = true → u.role ≠ Role.superAdmin →
       getAllTasks u store p = getAllTasks u store { p with departmentId := none } ∧
       (t ∈ docsOf (getAllTasks u store p) →
          t.company = u.company ∧ t.department = u.department)) ∧
    (p.departmentId = some r → r.validFormat = true → u.role = Role.superAdmin →
       t ∈ docsOf (getAllTasks u store p) → t.department = r.oid) := by
  refine ⟨?_, ?_, ?_⟩
  · intro hp hr
    unfold getAllTasks
    rw [hp]
    dsimp only
    rw [hr]
    rfl
  · intro hp hr hrole
    have hrb : (u.role == Role.superAdmin) = false := by simpa using hrole
    have hmain : getAllTasks u store p = getAllTasks u store { p with departmentId := none } := by
      unfold getAllTasks
      rw [hp]
      dsimp only
      rw [hr, hrb]
      rfl
    refine ⟨hmain, ?_⟩
    intro hmem
    have hs := getAllTasks_scope u store p t hmem
    rw [hp] at hs
    dsimp only at hs
    rw [hrb] at hs
    simpa using hs
  · intro hp hr hrole hmem
    have hrb : (u.role == Role.superAdmin) = true := by simp [hrole]
    have hs := getAllTasks_scope u store p t hmem
    rw [hp] at hs
    dsimp only at hs
    rw [hrb] at hs
    simpa using hs.2

/-- C10 witness: an invalid-format parameter errors for a Manager; a
valid one leaves the Manager query unchanged and scoped to their own
company and department, while a SuperAdmin sees it move the department
filter to department 30. -/
theorem c10_department_param_witness :
    getAllTasks wActiveMgr wStore ⟨none, none, some ⟨false, 7⟩⟩ =
      ListResult.err 400 "INVALID_DEPARTMENT_ID" ∧
    getAllTasks wActiveMgr wStore ⟨none, none, some ⟨true, 30⟩⟩ =
      getAllTasks wActiveMgr wStore ⟨none, none, none⟩ ∧
    (tA1.company = wActiveMgr.company ∧ tA1.department = wActiveMgr.department) ∧
    tP3.department = (RawId.mk true 30).oid :=
  ⟨(c10_department_param wActiveMgr wStore ⟨none, none, some ⟨false, 7⟩⟩ ⟨false, 7⟩ tA1).1 rfl rfl,
   ((c10_department_param wActiveMgr wStore ⟨none, none, some ⟨true, 30⟩⟩ ⟨true, 30⟩ tA1).2.1
     rfl rfl (by decide)).1,
   ((c10_department_param wActiveMgr wStore ⟨none, none, some ⟨true, 30⟩⟩ ⟨true, 30⟩ tA1).2.1
     rfl rfl (by decide)).2 (by decide),
   (c10_department_param wCreator wStore ⟨none, none, some ⟨true, 30⟩⟩ ⟨true, 30⟩ tP3).2.2
     rfl rfl rfl (by decide)⟩

end TaskMgr
